import Mathlib

/-!
# Verification of the `sow_backend` authentication subsystem

Shallow embedding of `src/apps/auth/utils.py` and `src/apps/auth/routes.py`:
password hashing (SHA-256 pre-digest feeding a length-limited adaptive hash),
JWT issuance/verification with typed claims, and the account flows
(register, forgot/reset password, verify email, resend verification).

External collaborators (the `hashlib` SHA-256 digest, the `passlib` bcrypt
context, the `jose` JWT codec's HMAC signature, the SQLAlchemy session and
the SMTP mailer) are modelled explicitly: SHA-256 is implemented in full;
bcrypt, the HMAC signature, the store and the mailer are modelled as
deterministic executable functions whose doc comments state what they model.
Machine integers use `Nat` with `% 2 ^ 32` where 32-bit overflow matters;
timestamps are `Int` seconds; fallible paths return `Except`/`Option`.
-/

namespace Sow

/-! ## SHA-256 (`hashlib.sha256(...).hexdigest()`)

A byte-level implementation of FIPS 180-4 SHA-256 over `List Nat`
(each element a byte), with 32-bit words as `Nat % 2^32`. -/

/-- The word modulus 2^32 for SHA-256 arithmetic. -/
def W32 : Nat := 4294967296

/-- Rotate a 32-bit word right by `n`. -/
def rotr (n x : Nat) : Nat := ((x >>> n) ||| (x <<< (32 - n))) % W32

/-- Bitwise complement of a 32-bit word. -/
def not32 (x : Nat) : Nat := x ^^^ (W32 - 1)

/-- The 64 SHA-256 round constants. -/
def shaK : List Nat :=
  [1116352408, 1899447441, 3049323471, 3921009573, 961987163, 1508970993,
   2453635748, 2870763221, 3624381080, 310598401, 607225278, 1426881987,
   1925078388, 2162078206, 2614888103, 3248222580, 3835390401, 4022224774,
   264347078, 604807628, 770255983, 1249150122, 1555081692, 1996064986,
   2554220882, 2821834349, 2952996808, 3210313671, 3336571891, 3584528711,
   113926993, 338241895, 666307205, 773529912, 1294757372, 1396182291,
   1695183700, 1986661051, 2177026350, 2456956037, 2730485921, 2820302411,
   3259730800, 3345764771, 3516065817, 3600352804, 4094571909, 275423344,
   430227734, 506948616, 659060556, 883997877, 958139571, 1322822218,
   1537002063, 1747873779, 1955562222, 2024104815, 2227730452, 2361852424,
   2428436474, 2756734187, 3204031479, 3329325298]

/-- The SHA-256 initial hash value. -/
def shaH0 : List Nat :=
  [1779033703, 3144134277, 1013904242, 2773480762,
   1359893119, 2600822924, 528734635, 1541459225]

/-- Group a byte list into big-endian 32-bit words (4 bytes per word). -/
def bytesToWords : List Nat → List Nat
  | b0 :: b1 :: b2 :: b3 :: rest =>
      (((b0 * 256 + b1) * 256 + b2) * 256 + b3) :: bytesToWords rest
  | _ => []

/-- Extend the 16 message words of one block to the 64-word schedule. -/
def extendSchedule (w : Array Nat) : Array Nat :=
  (List.range 48).foldl (fun w i =>
    let t := i + 16
    let x15 := w[t - 15]!
    let x2 := w[t - 2]!
    let s0 := (rotr 7 x15 ^^^ rotr 18 x15 ^^^ (x15 >>> 3)) % W32
    let s1 := (rotr 17 x2 ^^^ rotr 19 x2 ^^^ (x2 >>> 10)) % W32
    w.push ((w[t - 16]! + s0 + w[t - 7]! + s1) % W32)) w

/-- One SHA-256 compression step over the working variables `(a,…,h)`. -/
def shaRound (kw : Nat × Nat) (st : Nat × Nat × Nat × Nat × Nat × Nat × Nat × Nat) :
    Nat × Nat × Nat × Nat × Nat × Nat × Nat × Nat :=
  let (a, b, c, d, e, f, g, h) := st
  let s1 := rotr 6 e ^^^ rotr 11 e ^^^ rotr 25 e
  let ch := (e &&& f) ^^^ (not32 e &&& g)
  let t1 := (h + s1 + ch + kw.1 + kw.2) % W32
  let s0 := rotr 2 a ^^^ rotr 13 a ^^^ rotr 22 a
  let maj := (a &&& b) ^^^ (a &&& c) ^^^ (b &&& c)
  let t2 := (s0 + maj) % W32
  ((t1 + t2) % W32, a, b, c, (d + t1) % W32, e, f, g)

/-- Compress one 64-byte block into the running hash state. -/
def shaCompress (hs : List Nat) (block : List Nat) : List Nat :=
  let w := extendSchedule (Array.mk (bytesToWords block))
  match hs with
  | [h0, h1, h2, h3, h4, h5, h6, h7] =>
    let init := (h0, h1, h2, h3, h4, h5, h6, h7)
    let fin := (shaK.zip w.toList).foldl (fun st kw => shaRound kw st) init
    let (a, b, c, d, e, f, g, h) := fin
    [(h0 + a) % W32, (h1 + b) % W32, (h2 + c) % W32, (h3 + d) % W32,
     (h4 + e) % W32, (h5 + f) % W32, (h6 + g) % W32, (h7 + h) % W32]
  | _ => hs

/-- Split a byte list into 64-byte blocks (structural accumulator form). -/
def chunkAcc : List Nat → List Nat → List (List Nat)
  | [], acc => if acc.isEmpty then [] else [acc.reverse]
  | b :: bs, acc =>
    let acc' := b :: acc
    if acc'.length == 64 then acc'.reverse :: chunkAcc bs [] else chunkAcc bs acc'

/-- Split a byte list into 64-byte blocks. -/
def chunk64 (bs : List Nat) : List (List Nat) := chunkAcc bs []

/-- SHA-256 padding: append `0x80`, zeros, and the 64-bit big-endian bit length. -/
def shaPad (msg : List Nat) : List Nat :=
  let l := msg.length
  let k := (64 - ((l + 9) % 64)) % 64
  let bitLen := l * 8
  msg ++ 0x80 :: List.replicate k 0 ++
    [(bitLen >>> 56) % 256, (bitLen >>> 48) % 256, (bitLen >>> 40) % 256, (bitLen >>> 32) % 256,
     (bitLen >>> 24) % 256, (bitLen >>> 16) % 256, (bitLen >>> 8) % 256, bitLen % 256]

/-- The SHA-256 digest of a byte list, as eight 32-bit words. -/
def sha256Words (msg : List Nat) : List Nat :=
  (chunk64 (shaPad msg)).foldl shaCompress shaH0

/-- Render a 32-bit word as exactly eight lowercase hex digits. -/
def wordToHex (x : Nat) : List Char :=
  let d := Nat.toDigits 16 x
  List.replicate (8 - d.length) '0' ++ d

/-- UTF-8 encoding of one Unicode code point (Python `str.encode('utf-8')`). -/
def utf8Char (n : Nat) : List Nat :=
  if n < 0x80 then [n]
  else if n < 0x800 then [0xC0 ||| (n >>> 6), 0x80 ||| (n &&& 0x3F)]
  else if n < 0x10000 then
    [0xE0 ||| (n >>> 12), 0x80 ||| ((n >>> 6) &&& 0x3F), 0x80 ||| (n &&& 0x3F)]
  else
    [0xF0 ||| (n >>> 18), 0x80 ||| ((n >>> 12) &&& 0x3F),
     0x80 ||| ((n >>> 6) &&& 0x3F), 0x80 ||| (n &&& 0x3F)]

/-- UTF-8 encoding of a string as a byte list. -/
def utf8Encode (s : String) : List Nat := s.data.flatMap (fun c => utf8Char c.toNat)

/-- Models `hashlib.sha256(s.encode('utf-8')).hexdigest()`: the 64-character
lowercase hex digest of the UTF-8 bytes of `s`. -/
def sha256hex (s : String) : String :=
  ⟨(sha256Words (utf8Encode s)).flatMap wordToHex⟩

/-! ## Password hashing (`passlib` CryptContext with bcrypt)

`pwd_context = CryptContext(schemes=["bcrypt"], deprecated="auto")` is an
external library.  We model it as a deterministic executable hasher with an
explicit salt parameter (the library draws the salt at random inside
`hash`): the digest string is `salt ++ "$" ++ body`, `verify` re-derives the
body from the salt embedded in the digest, and — as `passlib` documents —
`verify` raises `UnknownHashError` when the stored digest cannot be
identified as a hash (here: when it contains no `'$'` separator), rather
than returning `False`.  bcrypt's documented 72-byte key truncation is
modelled by `List.take 72` on the key. -/

/-- Error raised by the modelled `passlib` context: `UnknownHashError`
(a `ValueError`) when the stored digest cannot be identified. -/
inductive PasslibError where
  | unknownHash
deriving Repr, DecidableEq

/-- bcrypt's maximum effective key length in bytes. -/
def BCRYPT_MAX_KEY_BYTES : Nat := 72

/-- Modelled bcrypt core: a deterministic one-way mix of salt and key
standing in for the Blowfish-EKS key schedule; the key is truncated to
72 bytes exactly as bcrypt truncates it. -/
def bcryptCore (salt key : List Char) : Nat :=
  (salt ++ key.take BCRYPT_MAX_KEY_BYTES).foldl
    (fun a c => (a * 1000003 + c.toNat + 1) % (2 ^ 64)) 5381

/-- Split a character list at its first `'$'`: the modelled hash-format
identification step.  `none` means the digest has no recognizable
bcrypt structure. -/
def splitDollar : List Char → Option (List Char × List Char)
  | [] => none
  | c :: rest =>
    if c == '$' then some ([], rest)
    else (splitDollar rest).map (fun p => (c :: p.1, p.2))

/-- Modelled `pwd_context.hash(secret)`: format a digest from the salt the
library drew and the bcrypt core output over that salt and the secret. -/
def pwd_context_hash (salt : List Char) (secret : String) : String :=
  ⟨salt ++ '$' :: Nat.toDigits 16 (bcryptCore salt secret.data)⟩

/-- Modelled `pwd_context.verify(secret, hashed)`: identify the hash
(extract the salt before the first `'$'`), re-derive and compare; raises
`UnknownHashError` when the digest cannot be identified. -/
def pwd_context_verify (secret hashed : String) : Except PasslibError Bool :=
  match splitDollar hashed.data with
  | none => .error .unknownHash
  | some (salt, body) => .ok (Nat.toDigits 16 (bcryptCore salt secret.data) == body)

/-- Embeds `_hash_password_for_bcrypt` from `src/apps/auth/utils.py`: pre-hash the
password with SHA-256 to handle bcrypt's 72-byte limit. -/
def hash_password_for_bcrypt (password : String) : String := sha256hex password

/-- Embeds `verify_password` from `src/apps/auth/utils.py`: pre-hash the plaintext,
then delegate to `pwd_context.verify`.  The Python wrapper catches nothing,
so the modelled `UnknownHashError` propagates to the caller. -/
def verify_password (plain_password hashed_password : String) : Except PasslibError Bool :=
  pwd_context_verify (hash_password_for_bcrypt plain_password) hashed_password

/-- Embeds `get_password_hash` from `src/apps/auth/utils.py`: pre-hash the
password, then delegate to `pwd_context.hash` (salt made explicit). -/
def get_password_hash (salt : List Char) (password : String) : String :=
  pwd_context_hash salt (hash_password_for_bcrypt password)

/-! ## JWT codec (`jose.jwt` with HS256)

`jwt.encode`/`jwt.decode` are external (`python-jose`).  A token is
modelled as its decoded claim set plus an HMAC-style signature tag:
`jwt_encode` signs the payload with the secret, `jwt_decode` checks the
signature and then the `exp` claim against the injected current time
(python-jose raises `ExpiredSignatureError` when `exp < now`, leeway 0).
The signature stands in for HMAC-SHA256: a deterministic keyed function
of the full payload. -/

/-- The claim set of a token in this program: `sub`, `exp` (unix seconds)
and the optional `type` claim. -/
structure JWTPayload where
  sub : Option String := none
  exp : Int := 0
  type : Option String := none
deriving Repr, DecidableEq

/-- Injection of a string into `Nat` for signing. -/
def encodeStr (s : String) : Nat := s.data.foldl (fun a c => a * 1114112 + c.toNat + 2) 1

/-- Injection of an optional string into `Nat` for signing. -/
def encodeOptStr : Option String → Nat
  | none => 0
  | some s => encodeStr s

/-- Injection of an integer into `Nat` for signing. -/
def encodeInt (i : Int) : Nat := if i < 0 then 2 * i.natAbs + 1 else 2 * i.natAbs

/-- Modelled HMAC-SHA256 over the serialized payload, keyed by the secret. -/
def signPayload (secret : Nat) (p : JWTPayload) : Nat :=
  ((encodeOptStr p.sub * 2 ^ 64 + encodeInt p.exp) * 2 ^ 64 + encodeOptStr p.type) * 2 ^ 64
    + secret

/-- A signed token: claim set plus signature tag. -/
structure JWT where
  payload : JWTPayload
  sig : Nat
deriving Repr, DecidableEq

/-- The `jose.JWTError` family relevant here. -/
inductive JWTError where
  | invalidSignature
  | expiredSignature
deriving Repr, DecidableEq

/-- Modelled `jwt.encode(claims, SECRET_KEY, algorithm="HS256")`. -/
def jwt_encode (secret : Nat) (p : JWTPayload) : JWT := ⟨p, signPayload secret p⟩

/-- Modelled `jwt.decode(token, SECRET_KEY, algorithms=["HS256"])` at
current time `now`: verify the signature, then reject when `exp < now`. -/
def jwt_decode (secret : Nat) (now : Int) (t : JWT) : Except JWTError JWTPayload :=
  if t.sig ≠ signPayload secret t.payload then .error .invalidSignature
  else if t.payload.exp < now then .error .expiredSignature
  else .ok t.payload

/-- Default of the `ACCESS_TOKEN_EXPIRE_MINUTES` config in
`src/apps/auth/utils.py`. -/
def ACCESS_TOKEN_EXPIRE_MINUTES : Nat := 30

/-- Default of the `EMAIL_TOKEN_EXPIRE_HOURS` config in
`src/apps/auth/utils.py`. -/
def EMAIL_TOKEN_EXPIRE_HOURS : Nat := 24

/-- Embeds `create_access_token` from `src/apps/auth/utils.py`.  The callers pass
`data={"sub": email}`, modelled by the `sub` argument; `SECRET_KEY` and
`datetime.utcnow()` are injected.  Python's `if expires_delta:` is falsy
for a zero timedelta, hence the `d ≠ 0` test; the payload carries no
`type` claim. -/
def create_access_token (secret : Nat) (now : Int) (sub : String)
    (expires_delta : Option Int := none) : JWT :=
  let expire : Int :=
    match expires_delta with
    | some d =>
      if d ≠ 0 then now + d else now + (ACCESS_TOKEN_EXPIRE_MINUTES : Int) * 60
    | none => now + (ACCESS_TOKEN_EXPIRE_MINUTES : Int) * 60
  jwt_encode secret { sub := some sub, exp := expire }

/-- Embeds `create_refresh_token` from `src/apps/auth/utils.py`: 7-day expiry and
an explicit `type = "refresh"` claim. -/
def create_refresh_token (secret : Nat) (now : Int) (sub : String) : JWT :=
  jwt_encode secret { sub := some sub, exp := now + 7 * 86400, type := some "refresh" }

/-- Embeds `create_email_verification_token` from `src/apps/auth/utils.py`:
configurable-hours expiry and an explicit `type = "email_verification"`
claim, subject-bound to the email. -/
def create_email_verification_token (secret : Nat) (now : Int) (email : String) : JWT :=
  jwt_encode secret
    { sub := some email, exp := now + (EMAIL_TOKEN_EXPIRE_HOURS : Int) * 3600,
      type := some "email_verification" }

/-- Embeds `verify_token` from `src/apps/auth/utils.py`: decode (any `JWTError`
becomes `none`), then — only when the expected type is not `"access"` —
require the `type` claim to equal the expected type, then require a
non-null `sub`, which is returned. -/
def verify_token (secret : Nat) (now : Int) (token : JWT)
    (token_type : String := "access") : Option String :=
  match jwt_decode secret now token with
  | .error _ => none
  | .ok payload =>
    if token_type != "access" && payload.type != some token_type then none
    else
      match payload.sub with
      | none => none
      | some email => some email

/-! ## The Account record and the store

`src/apps/auth/routes.py` imports `User` from `apps.auth.models`, a module
absent from the sources; the record is therefore modelled from the spec.
The SQLAlchemy session is modelled as a `List User` snapshot:
`db.query(User).filter(...).first()` is `List.find?`, and mutating the
found ORM object followed by `db.commit()` is `updateFirst` (the first
matching record is replaced, every other record untouched). -/

/-- Modelled from the spec: the Account record (§3 of the spec;
`src/apps/auth/models.py` is missing from the sources).  Fields: stable
`id`; unique `email`; `hashed_password`; `is_active` (default true);
`is_verified` (default false); `verification_token` (the stored JWT,
present only while verification is outstanding); `reset_token` plus
`reset_token_expires` (opaque string and absolute expiry, present only
while a reset is outstanding); `first_name`/`last_name` as used by the
routes.  Audit timestamps are omitted: no claim mentions them. -/
structure User where
  id : Nat
  email : String
  hashed_password : String
  first_name : Option String := none
  last_name : Option String := none
  is_active : Bool := true
  is_verified : Bool := false
  verification_token : Option JWT := none
  reset_token : Option String := none
  reset_token_expires : Option Int := none
deriving Repr, DecidableEq

/-- Replace the first record satisfying `p` by its image under `f`;
models mutating the object returned by `.first()` and committing. -/
def updateFirst (p : User → Bool) (f : User → User) : List User → List User
  | [] => []
  | u :: us => if p u then f u :: us else u :: updateFirst p f us

/-- Models `fastapi.HTTPException`: status code and detail string. -/
structure HTTPException where
  status_code : Nat
  detail : String
deriving Repr, DecidableEq

/-- A flow's outcome: the `MessageResponse` message on success or the
raised `HTTPException`, paired with the committed store state. -/
abbrev FlowResult := Except HTTPException String × List User

/-- The `UserCreate` request schema from `src/apps/auth/schemas.py`. -/
structure UserCreate where
  email : String
  password : String
  first_name : Option String := none
  last_name : Option String := none
deriving Repr, DecidableEq

/-! ## Auth flow controller (`src/apps/auth/routes.py`)

Each handler takes its environment explicitly: the signing secret, the
bcrypt salt the hasher would draw, the current time, the id the store
would assign, and whether the SMTP send succeeds (`send_email` returns a
boolean).  Each returns the response together with the committed store. -/

/-- Embeds `register`: reject an existing email with 400, otherwise create the
unverified active account with a fresh verification token, commit, then
send the verification mail — a send failure surfaces as a 500 but the
account row is already committed. -/
def register (secret : Nat) (salt : List Char) (now : Int) (newId : Nat)
    (email_send_ok : Bool) (user_data : UserCreate) (db : List User) : FlowResult :=
  match db.find? (fun u => u.email == user_data.email) with
  | some _ => (.error ⟨400, "Email already registered"⟩, db)
  | none =>
    let verification_token := create_email_verification_token secret now user_data.email
    let user : User :=
      { id := newId, email := user_data.email,
        hashed_password := get_password_hash salt user_data.password,
        first_name := user_data.first_name, last_name := user_data.last_name,
        verification_token := some verification_token }
    let db2 := db ++ [user]
    if email_send_ok then
      (.ok "User registered successfully. Please check your email to verify your account.", db2)
    else (.error ⟨500, "Failed to send verification email"⟩, db2)

/-- Embeds `forgot_password`: an unknown email gets the generic success message;
a known email gets a fresh opaque reset token with a one-hour expiry
committed onto the record, then the reset mail is sent — a send failure
surfaces as a 500 (the token is already committed). -/
def forgot_password (now : Int) (reset_token : String) (email_send_ok : Bool)
    (email : String) (db : List User) : FlowResult :=
  match db.find? (fun u => u.email == email) with
  | none =>
    (.ok "If the email exists in our system, you will receive a password reset link.", db)
  | some _ =>
    let db2 := updateFirst (fun u => u.email == email)
      (fun u =>
        { u with reset_token := some reset_token,
                 reset_token_expires := some (now + 3600) }) db
    if email_send_ok then
      (.ok "If the email exists in our system, you will receive a password reset link.", db2)
    else (.error ⟨500, "Failed to send password reset email"⟩, db2)

/-- Embeds `reset_password`: look the record up by stored reset token (400
"Invalid reset token" when none matches); reject a past expiry with 400
"Reset token has expired"; otherwise replace the hash and clear both
reset fields in one commit.  A NULL `reset_token_expires` would make
Python's `<` comparison raise `TypeError` (an unhandled 500), modelled
as the 500 branch. -/
def reset_password (salt : List Char) (now : Int) (token new_password : String)
    (db : List User) : FlowResult :=
  match db.find? (fun u => u.reset_token == some token) with
  | none => (.error ⟨400, "Invalid reset token"⟩, db)
  | some user =>
    match user.reset_token_expires with
    | none => (.error ⟨500, "TypeError"⟩, db)
    | some e =>
      if e < now then (.error ⟨400, "Reset token has expired"⟩, db)
      else
        (.ok "Password reset successfully",
         updateFirst (fun u => u.reset_token == some token)
           (fun u =>
             { u with hashed_password := get_password_hash salt new_password,
                      reset_token := none, reset_token_expires := none }) db)

/-- Embeds `verify_email`: decode the verification token with expected type
`"email_verification"` (400 on failure), look the subject up by email
(404 when absent), return "Email already verified" idempotently for a
verified account, otherwise set `is_verified` and clear the stored
verification token in one commit. -/
def verify_email (secret : Nat) (now : Int) (token : JWT) (db : List User) : FlowResult :=
  match verify_token secret now token "email_verification" with
  | none => (.error ⟨400, "Invalid verification token"⟩, db)
  | some email =>
    match db.find? (fun u => u.email == email) with
    | none => (.error ⟨404, "User not found"⟩, db)
    | some user =>
      if user.is_verified then (.ok "Email already verified", db)
      else
        (.ok "Email verified successfully",
         updateFirst (fun u => u.email == email)
           (fun u => { u with is_verified := true, verification_token := none }) db)

/-- Embeds `resend_verification_email`: 404 "User not found" for an unknown
email; "Email already verified" for a verified account; otherwise
overwrite the stored verification token with a fresh one, commit, then
send — a send failure surfaces as a 500. -/
def resend_verification_email (secret : Nat) (now : Int) (email_send_ok : Bool)
    (email : String) (db : List User) : FlowResult :=
  match db.find? (fun u => u.email == email) with
  | none => (.error ⟨404, "User not found"⟩, db)
  | some user =>
    if user.is_verified then (.ok "Email already verified", db)
    else
      let verification_token := create_email_verification_token secret now user.email
      let db2 := updateFirst (fun u => u.email == email)
        (fun u => { u with verification_token := some verification_token }) db
      if email_send_ok then (.ok "Verification email sent successfully", db2)
      else (.error ⟨500, "Failed to send verification email"⟩, db2)

/-! ## Helper lemmas -/

/-- Hash-format identification succeeds on a well-formed digest: splitting
`salt ++ '$' :: body` at the first `'$'` recovers salt and body when the
salt itself contains no `'$'`. -/
theorem splitDollar_append (salt body : List Char) (h : '$' ∉ salt) :
    splitDollar (salt ++ '$' :: body) = some (salt, body) := by
  induction salt with
  | nil => simp [splitDollar]
  | cons c cs ih =>
    simp only [List.mem_cons, not_or] at h
    have hc : (c == '$') = false := by
      simp only [beq_eq_false_iff_ne]
      exact Ne.symm h.1
    simp [splitDollar, hc, ih h.2]

/-- Hash-format identification fails exactly on digests with no `'$'`. -/
theorem splitDollar_eq_none (l : List Char) : splitDollar l = none ↔ '$' ∉ l := by
  induction l with
  | nil => simp [splitDollar]
  | cons c cs ih =>
    by_cases hc : c = '$'
    · subst hc; simp [splitDollar]
    · have hcb : (c == '$') = false := by simp [hc]
      simp [splitDollar, hcb, Option.map_eq_none', ih, Ne.symm hc]

/-- Evaluates `find?` over a store decomposed around its first match. -/
theorem find?_append_cons (p : User → Bool) (pre post : List User) (u : User)
    (hpre : ∀ v ∈ pre, p v = false) (hu : p u = true) :
    (pre ++ u :: post).find? p = some u := by
  induction pre with
  | nil => simp [List.find?_cons_of_pos, hu]
  | cons a as ih =>
    have ha := hpre a (by simp)
    simp only [List.cons_append, List.find?_cons_of_neg, ha, Bool.false_eq_true,
      not_false_iff]
    exact ih (fun v hv => hpre v (by simp [hv]))

/-- Evaluates `updateFirst` over a store decomposed around its first match: only the
matching record is replaced, everything before and after is untouched. -/
theorem updateFirst_append_cons (p : User → Bool) (f : User → User)
    (pre post : List User) (u : User)
    (hpre : ∀ v ∈ pre, p v = false) (hu : p u = true) :
    updateFirst p f (pre ++ u :: post) = pre ++ f u :: post := by
  induction pre with
  | nil => simp [updateFirst, hu]
  | cons a as ih =>
    have ha := hpre a (by simp)
    simp [updateFirst, ha, ih (fun v hv => hpre v (by simp [hv]))]

/-- If `find?` hits a record and the update keeps it matching, `find?`
after `updateFirst` hits the updated record. -/
theorem find?_updateFirst_same (p : User → Bool) (f : User → User)
    (db : List User) (u : User)
    (hfind : db.find? p = some u) (hp : p (f u) = true) :
    (updateFirst p f db).find? p = some (f u) := by
  induction db with
  | nil => simp at hfind
  | cons a as ih =>
    by_cases ha : p a
    · rw [List.find?_cons_of_pos _ ha] at hfind
      injection hfind with h
      subst h
      simp [updateFirst, ha, List.find?_cons_of_pos _ hp]
    · rw [List.find?_cons_of_neg _ ha] at hfind
      have hab : p a = false := by simpa using ha
      simp only [updateFirst, hab, Bool.false_eq_true, if_false]
      rw [List.find?_cons_of_neg _ ha]
      exact ih hfind

/-! ## Claim C4 — hash/verify round trip through the pre-digest -/

/-- C4: for every password `p` (any length, in particular beyond bcrypt's
72-byte native limit) and every salt the hasher draws, verifying `p`
against `get_password_hash p` succeeds: the SHA-256 pre-digest is applied
identically on the hash and the verify path. -/
theorem C4_password_roundtrip (salt : List Char) (p : String) (hsalt : '$' ∉ salt) :
    verify_password p (get_password_hash salt p) = .ok true := by
  simp [verify_password, get_password_hash, pwd_context_verify, pwd_context_hash,
    splitDollar_append _ _ hsalt]

/-- A 100-character password, well past bcrypt's 72-byte limit. -/
def c4LongPassword : String := ⟨List.replicate 100 'a'⟩

/-- A modelled bcrypt salt (no `'$'`). -/
def c4Salt : List Char := "N9qo8uLOickgx2ZMRZoMye".data

/-- C4 witness: the round trip evaluated on a concrete 100-character
password. -/
theorem C4_password_roundtrip_witness :
    verify_password c4LongPassword (get_password_hash c4Salt c4LongPassword) = .ok true :=
  C4_password_roundtrip c4Salt c4LongPassword (by decide)

/-! ## Claim C5 — behavior of `verify_password` on malformed digests -/

/-- C5 counterexample: on a stored digest with no recognizable hash
structure, `verify_password` does not return `false` — the modelled
passlib `UnknownHashError` propagates out of it (the Python wrapper
catches nothing), refuting "returns a boolean (false on malformed input)
and never raises". -/
theorem C5_counterexample :
    verify_password "password" "nothashformat" = .error .unknownHash ∧
    verify_password "password" "nothashformat" ≠ .ok false := by
  refine ⟨rfl, fun h => ?_⟩
  rw [show verify_password "password" "nothashformat"
        = Except.error PasslibError.unknownHash from rfl] at h
  exact Except.noConfusion h

/-- C5 (amended): `verify_password` returns a boolean only for digests the
hasher can identify (those containing the `'$'` separator), `false` on
mismatch; for unidentifiable digests it raises (returns the modelled
`UnknownHashError`) instead of returning `false`. -/
theorem C5_verify_password_malformed (plain digest : String) :
    ('$' ∉ digest.data → verify_password plain digest = .error .unknownHash) ∧
    ('$' ∈ digest.data → ∃ b, verify_password plain digest = .ok b) := by
  constructor
  · intro h
    have hs : splitDollar digest.data = none := (splitDollar_eq_none _).mpr h
    simp [verify_password, pwd_context_verify, hs]
  · intro h
    have hs : splitDollar digest.data ≠ none := by
      rw [Ne, splitDollar_eq_none]
      simpa using h
    match hsd : splitDollar digest.data with
    | none => exact absurd hsd hs
    | some (salt, body) =>
      refine ⟨Nat.toDigits 16 (bcryptCore salt (hash_password_for_bcrypt plain).data) == body, ?_⟩
      simp [verify_password, pwd_context_verify, hsd]

/-- C5 witness: the amended dichotomy evaluated at two concrete digests. -/
theorem C5_verify_password_malformed_witness :
    verify_password "pw" "plainjunk" = .error .unknownHash ∧
    ∃ b, verify_password "pw" "ab$cd" = .ok b :=
  ⟨(C5_verify_password_malformed "pw" "plainjunk").1 (by decide),
   (C5_verify_password_malformed "pw" "ab$cd").2 (by decide)⟩

/-! ## Claim C1 — token-type discrimination in `verify_token` -/

/-- C1 counterexample: decoding a refresh token with expected type
`"access"` does not return `none` — it returns the subject, because
`verify_token` only checks the `type` claim when the expected type is not
`"access"` (`if token_type != "access" and payload.get("type") != token_type`). -/
theorem C1_counterexample :
    verify_token 0 0 (create_refresh_token 0 0 "alice@example.com") "access"
      = some "alice@example.com" ∧
    verify_token 0 0 (create_refresh_token 0 0 "alice@example.com") "access" ≠ none := by
  refine ⟨rfl, fun h => ?_⟩
  rw [show verify_token 0 0 (create_refresh_token 0 0 "alice@example.com") "access"
        = some "alice@example.com" from rfl] at h
  exact Option.noConfusion h

/-- C1 (amended): decoding an unexpired refresh token with expected type
`"refresh"` returns the subject; decoding that same token with expected
type `"access"` also returns the subject — the type-mismatch check is
skipped entirely whenever the expected type is `"access"`. -/
theorem C1_refresh_token_type_check (secret : Nat) (t0 t1 : Int) (sub : String)
    (h : t1 ≤ t0 + 7 * 86400) :
    verify_token secret t1 (create_refresh_token secret t0 sub) "refresh" = some sub ∧
    verify_token secret t1 (create_refresh_token secret t0 sub) "access" = some sub := by
  have hexp : ¬ ((t0 + 604800 : Int) < t1) := by omega
  constructor <;>
    simp [verify_token, create_refresh_token, jwt_decode, jwt_encode, hexp]

/-- C1 witness: the amended behavior at a concrete secret, time and
subject. -/
theorem C1_refresh_token_type_check_witness :
    verify_token 5 10 (create_refresh_token 5 10 "bob@example.com") "refresh"
      = some "bob@example.com" ∧
    verify_token 5 10 (create_refresh_token 5 10 "bob@example.com") "access"
      = some "bob@example.com" :=
  C1_refresh_token_type_check 5 10 10 "bob@example.com" (by omega)

/-! ## Claim C6 — expired tokens fail decode -/

/-- C6: a token whose `exp` is already in the past at decode time (such as
one issued with `expires_delta` of -1 second) fails `verify_token` for
every expected type: the modelled `ExpiredSignatureError` is caught and
`None` is returned. -/
theorem C6_expired_token_rejected (secret : Nat) (t0 t1 : Int) (sub : String)
    (d : Int) (token_type : String) (hd : d ≠ 0) (hexp : t0 + d < t1) :
    verify_token secret t1 (create_access_token secret t0 sub (some d)) token_type
      = none := by
  simp [verify_token, create_access_token, jwt_decode, jwt_encode, hd, hexp]

/-- C6 witness: a token issued at time 100 with a -1-second ttl is
rejected when decoded at time 100. -/
theorem C6_expired_token_rejected_witness :
    verify_token 7 100 (create_access_token 7 100 "u@example.com" (some (-1))) "access"
      = none :=
  C6_expired_token_rejected 7 100 100 "u@example.com" (-1) "access"
    (by omega) (by omega)

/-! ## Claim C2 — verify-email called twice with the same token -/

/-- The verification token issued for `a@x.com` at time 0 under secret 0. -/
def c2Token : JWT := create_email_verification_token 0 0 "a@x.com"

/-- A store holding the single unverified account for `a@x.com` with
`c2Token` outstanding. -/
def c2Db : List User :=
  [{ id := 1, email := "a@x.com", hashed_password := "h",
     verification_token := some c2Token }]

/-- C2 counterexample: the first verify-email call succeeds, and the
second call with the very same (now-consumed) token does NOT fail as
invalid — it succeeds with "Email already verified", because the token is
a stateless JWT that still decodes and the stored `verification_token`
column is never consulted. -/
theorem C2_counterexample :
    (verify_email 0 0 c2Token c2Db).1 = .ok "Email verified successfully" ∧
    (verify_email 0 0 c2Token (verify_email 0 0 c2Token c2Db).2).1
      = .ok "Email already verified" ∧
    (verify_email 0 0 c2Token (verify_email 0 0 c2Token c2Db).2).1
      ≠ .error ⟨400, "Invalid verification token"⟩ := by
  refine ⟨rfl, rfl, fun h => ?_⟩
  rw [show (verify_email 0 0 c2Token (verify_email 0 0 c2Token c2Db).2).1
        = .ok "Email already verified" from rfl] at h
  exact Except.noConfusion h

/-- C2 (amended): with a valid verification token whose subject resolves
to an unverified account, the first verify-email call succeeds
("Email verified successfully", setting `is_verified` and clearing the
stored token); the second call with the same token succeeds idempotently
with "Email already verified" and leaves the store unchanged — it does
not fail as invalid, because token validity is a stateless JWT check. -/
theorem C2_verify_email_twice (secret : Nat) (now : Int) (tok : JWT)
    (db : List User) (u : User) (email : String)
    (htok : verify_token secret now tok "email_verification" = some email)
    (hfind : db.find? (fun v => v.email == email) = some u)
    (hunv : u.is_verified = false) :
    (verify_email secret now tok db).1 = .ok "Email verified successfully" ∧
    (verify_email secret now tok (verify_email secret now tok db).2).1
      = .ok "Email already verified" ∧
    (verify_email secret now tok (verify_email secret now tok db).2).2
      = (verify_email secret now tok db).2 := by
  have hp := List.find?_some hfind
  have h1 : verify_email secret now tok db =
      (.ok "Email verified successfully",
       updateFirst (fun v => v.email == email)
         (fun v => { v with is_verified := true, verification_token := none }) db) := by
    simp [verify_email, htok, hfind, hunv]
  have h2 : (updateFirst (fun v => v.email == email)
        (fun v => { v with is_verified := true, verification_token := none }) db).find?
        (fun v => v.email == email)
      = some { u with is_verified := true, verification_token := none } :=
    find?_updateFirst_same _ _ _ _ hfind hp
  refine ⟨by rw [h1], ?_, ?_⟩
  · rw [h1]
    simp [verify_email, htok, h2]
  · rw [h1]
    simp [verify_email, htok, h2]

/-- C2 witness: the amended two-call behavior on the concrete store. -/
theorem C2_verify_email_twice_witness :
    (verify_email 0 0 c2Token c2Db).1 = .ok "Email verified successfully" ∧
    (verify_email 0 0 c2Token (verify_email 0 0 c2Token c2Db).2).1
      = .ok "Email already verified" ∧
    (verify_email 0 0 c2Token (verify_email 0 0 c2Token c2Db).2).2
      = (verify_email 0 0 c2Token c2Db).2 :=
  C2_verify_email_twice 0 0 c2Token c2Db
    { id := 1, email := "a@x.com", hashed_password := "h",
      verification_token := some c2Token }
    "a@x.com" rfl rfl rfl

/-! ## Claim C3 — forgot-password enumeration resistance -/

/-- An existing account for the C3 scenario. -/
def c3User : User := { id := 1, email := "a@x.com", hashed_password := "h" }

/-- C3 counterexample: when the notification send fails, forgot-password
for the existing email surfaces a 500 server error while the same call
for a non-existent email still returns the generic success message — the
send failure is NOT masked, and the two responses differ. -/
theorem C3_counterexample :
    (forgot_password 0 "rtok" false "a@x.com" [c3User]).1
      = .error ⟨500, "Failed to send password reset email"⟩ ∧
    (forgot_password 0 "rtok" false "missing@x.com" [c3User]).1
      = .ok "If the email exists in our system, you will receive a password reset link." ∧
    (forgot_password 0 "rtok" false "a@x.com" [c3User]).1
      ≠ (forgot_password 0 "rtok" false "missing@x.com" [c3User]).1 := by
  refine ⟨rfl, rfl, fun h => ?_⟩
  rw [show (forgot_password 0 "rtok" false "a@x.com" [c3User]).1
        = .error ⟨500, "Failed to send password reset email"⟩ from rfl,
      show (forgot_password 0 "rtok" false "missing@x.com" [c3User]).1
        = .ok "If the email exists in our system, you will receive a password reset link."
        from rfl] at h
  exact Except.noConfusion h

/-- C3 (amended): whenever the notification send succeeds, forgot-password
returns the identical success message and status whether or not the email
exists; but a send failure for an existing email surfaces as a 500 server
error (only the not-found branch is masked). -/
theorem C3_forgot_password_uniform (now : Int) (rt email : String) (db : List User) :
    (forgot_password now rt true email db).1
      = .ok "If the email exists in our system, you will receive a password reset link." ∧
    ((∃ u, db.find? (fun v => v.email == email) = some u) →
      (forgot_password now rt false email db).1
        = .error ⟨500, "Failed to send password reset email"⟩) := by
  constructor
  · cases h : db.find? (fun v => v.email == email) <;> simp [forgot_password, h]
  · rintro ⟨u, hu⟩
    simp [forgot_password, hu]

/-- C3 witness: the amended behavior on the concrete one-account store. -/
theorem C3_forgot_password_uniform_witness :
    (forgot_password 0 "rtok" true "a@x.com" [c3User]).1
      = .ok "If the email exists in our system, you will receive a password reset link." ∧
    (forgot_password 0 "rtok" false "a@x.com" [c3User]).1
      = .error ⟨500, "Failed to send password reset email"⟩ :=
  ⟨(C3_forgot_password_uniform 0 "rtok" "a@x.com" [c3User]).1,
   (C3_forgot_password_uniform 0 "rtok" "a@x.com" [c3User]).2 ⟨c3User, rfl⟩⟩

/-! ## Claim C7 — duplicate registration is rejected without mutation -/

/-- C7: when some account already holds the requested email, register
returns the 400 "Email already registered" conflict and the store is
returned exactly as it was: no second account, no field touched. -/
theorem C7_register_conflict (secret : Nat) (salt : List Char) (now : Int)
    (newId : Nat) (ok : Bool) (ud : UserCreate) (db : List User) (u : User)
    (hfind : db.find? (fun v => v.email == ud.email) = some u) :
    register secret salt now newId ok ud db
      = (.error ⟨400, "Email already registered"⟩, db) := by
  simp [register, hfind]

/-- An existing account for the C7 scenario. -/
def c7User : User := { id := 1, email := "a@x.com", hashed_password := "h" }

/-- C7 witness: a second registration for `a@x.com` against the concrete
one-account store. -/
theorem C7_register_conflict_witness :
    register 0 [] 0 2 true { email := "a@x.com", password := "pw" } [c7User]
      = (.error ⟨400, "Email already registered"⟩, [c7User]) :=
  C7_register_conflict 0 [] 0 2 true { email := "a@x.com", password := "pw" }
    [c7User] c7User rfl

/-! ## Claim C8 — expired reset token: distinct error, no mutation -/

/-- C8: when the presented token matches a stored `reset_token` but the
stored `reset_token_expires` is in the past, reset-password returns the
400 "Reset token has expired" error — distinct from the invalid-token
error — and the store (hence the password hash and every other field) is
returned unchanged. -/
theorem C8_reset_password_expired (salt : List Char) (now : Int)
    (tok np : String) (db : List User) (u : User) (e : Int)
    (hfind : db.find? (fun v => v.reset_token == some tok) = some u)
    (hexp : u.reset_token_expires = some e) (hlt : e < now) :
    reset_password salt now tok np db
      = (.error ⟨400, "Reset token has expired"⟩, db) ∧
    (⟨400, "Reset token has expired"⟩ : HTTPException)
      ≠ (⟨400, "Invalid reset token"⟩ : HTTPException) := by
  refine ⟨?_, by decide⟩
  simp [reset_password, hfind, hexp, hlt]

/-- An account whose reset token expired one second before the call
(expiry -1, call time 0). -/
def c8User : User :=
  { id := 1, email := "a@x.com", hashed_password := "h",
    reset_token := some "tok", reset_token_expires := some (-1) }

/-- C8 witness: the expired-token rejection on the concrete store. -/
theorem C8_reset_password_expired_witness :
    reset_password [] 0 "tok" "newpw" [c8User]
      = (.error ⟨400, "Reset token has expired"⟩, [c8User]) ∧
    (⟨400, "Reset token has expired"⟩ : HTTPException)
      ≠ (⟨400, "Invalid reset token"⟩ : HTTPException) :=
  C8_reset_password_expired [] 0 "tok" "newpw" [c8User] c8User (-1)
    rfl rfl (by omega)

/-! ## Claim C9 — successful reset: atomic replace-and-clear -/

/-- C9: with a matching, unexpired reset token, reset-password returns
success and the single committed store in which the matched record — and
only that record — has its hash replaced and both `reset_token` and
`reset_token_expires` cleared, all in the same update (the flow produces
exactly this one state, so there is no intermediate state with the new
hash set while the consumed token is still present); every other field of
the record and every other record are unchanged. -/
theorem C9_reset_password_success (salt : List Char) (now : Int)
    (tok np : String) (pre post : List User) (u : User) (e : Int)
    (hpre : ∀ v ∈ pre, (v.reset_token == some tok) = false)
    (hu : u.reset_token = some tok)
    (hexp : u.reset_token_expires = some e) (hfresh : ¬ e < now) :
    reset_password salt now tok np (pre ++ u :: post)
      = (.ok "Password reset successfully",
         pre ++ { u with hashed_password := get_password_hash salt np,
                         reset_token := none, reset_token_expires := none } :: post) := by
  have hup : (fun v => v.reset_token == some tok) u = true := by simp [hu]
  have hfind := find?_append_cons _ pre post u hpre hup
  simp [reset_password, hfind, hexp, hfresh,
    updateFirst_append_cons _ _ pre post u hpre hup]

/-- An account with a live reset token (expiry 99, call time 0). -/
def c9User : User :=
  { id := 1, email := "a@x.com", hashed_password := "h",
    reset_token := some "tok", reset_token_expires := some 99 }

/-- C9 witness: the successful reset on the concrete one-account store. -/
theorem C9_reset_password_success_witness :
    reset_password [] 0 "tok" "newpw" [c9User]
      = (.ok "Password reset successfully",
         [{ c9User with hashed_password := get_password_hash [] "newpw",
                        reset_token := none, reset_token_expires := none }]) :=
  C9_reset_password_success [] 0 "tok" "newpw" [] [] c9User 99
    (by simp) rfl rfl (by omega)

/-! ## Claim C10 — resend-verification reveals account existence -/

/-- C10: for an email with no account, resend-verification returns the 404
"User not found" error (store unchanged), while forgot-password on the
same absent email returns the generic success message — so this endpoint,
unlike forgot-password, reveals whether the account exists. -/
theorem C10_resend_verification_not_found (secret : Nat) (now : Int)
    (ok ok2 : Bool) (rt email : String) (db : List User)
    (hfind : db.find? (fun v => v.email == email) = none) :
    resend_verification_email secret now ok email db
      = (.error ⟨404, "User not found"⟩, db) ∧
    forgot_password now rt ok2 email db
      = (.ok "If the email exists in our system, you will receive a password reset link.",
         db) := by
  constructor
  · simp [resend_verification_email, hfind]
  · simp [forgot_password, hfind]

/-- C10 witness: the contrast evaluated on the empty store. -/
theorem C10_resend_verification_not_found_witness :
    resend_verification_email 0 0 true "ghost@x.com" []
      = (.error ⟨404, "User not found"⟩, []) ∧
    forgot_password 0 "rt" true "ghost@x.com" []
      = (.ok "If the email exists in our system, you will receive a password reset link.",
         []) :=
  C10_resend_verification_not_found 0 0 true true "rt" "ghost@x.com" [] rfl

end Sow
